import Mathlib

/-!
# Verification of the swakarthi measurement-prediction core

A shallow embedding of the body-measurement derivation engine
(`src/utils.py`, `src/routes.py`) in Lean 4, together with theorems
settling the specification claims about it.

Modelling conventions:
* Python floats are idealised as rationals (`ℚ`); `round(x, 2)` is embedded
  as round-half-to-even at two decimals (`round2`).
* Python dicts are embedded as association lists (`List (String × α)`) with
  Python's assignment semantics: assigning to an existing key replaces the
  value in place, assigning to a fresh key appends it (`dinsert`).
* A Python value that may be `None` or a float is `Option ℚ`.
* A pandas cell that may be NaN/missing is `Option String`.
* `datetime.now()` is an abstract tick (`Nat`) supplied by the caller.
* The trained regression model is an opaque function parameter.
-/
/-! ## Dictionaries (Python `dict` as an association list) -/
/-- Python dict lookup `d.get(k)` / `d[k]`. -/
def dlookup {α : Type} (k : String) : List (String × α) → Option α
  | [] => none
  | (k0, v0) :: rest => if k0 = k then some v0 else dlookup k rest

/-- Python dict assignment `d[k] = v`: replace in place if the key exists,
append otherwise. -/
def dinsert {α : Type} (k : String) (v : α) : List (String × α) → List (String × α)
  | [] => [(k, v)]
  | (k0, v0) :: rest => if k0 = k then (k, v) :: rest else (k0, v0) :: dinsert k v rest

/-- Python `d.update(ms)`: assign every pair of `ms` into `d`, in order. -/
def dUpdate {α : Type} (d ms : List (String × α)) : List (String × α) :=
  ms.foldl (fun acc kv => dinsert kv.1 kv.2 acc) d

/-- The keys of a dict, in order. -/
def dkeys {α : Type} (d : List (String × α)) : List String := d.map Prod.fst

/-! ## Kernel-computable rational arithmetic

`Rat.mul`, `Rat.inv`, `Rat.add` and `Rat.sub` are `@[irreducible]` in the
standard library, so terms built from them do not evaluate inside `decide`.
The model therefore computes with the following `Rat.divInt`-based
equivalents, each proved equal to the standard operation. -/
def qmul (a b : ℚ) : ℚ := Rat.divInt (a.num * b.num) ((a.den : ℤ) * (b.den : ℤ))

def qinv (b : ℚ) : ℚ := Rat.divInt (b.den : ℤ) b.num

def qdiv (a b : ℚ) : ℚ := qmul a (qinv b)

def qadd (a b : ℚ) : ℚ :=
  Rat.divInt (a.num * (b.den : ℤ) + b.num * (a.den : ℤ)) ((a.den : ℤ) * (b.den : ℤ))

def qsub (a b : ℚ) : ℚ :=
  Rat.divInt (a.num * (b.den : ℤ) - b.num * (a.den : ℤ)) ((a.den : ℤ) * (b.den : ℤ))

/-- Sum of a list of rationals, via `qadd`. -/
def qsum : List ℚ → ℚ
  | [] => 0
  | x :: xs => qadd x (qsum xs)

/-- Two-decimal literal: `q2 n` is the Python literal `n/100`
(e.g. `q2 47` is `0.47`, `q2 254` is `2.54`). -/
def q2 (n : ℤ) : ℚ := Rat.divInt n 100

/-- Three-decimal literal: `q3 n` is the Python literal `n/1000`
(e.g. `q3 115` is `0.115`). -/
def q3 (n : ℤ) : ℚ := Rat.divInt n 1000

/-- Python `max(a, b)` on two floats. -/
def pymax (a b : ℚ) : ℚ := if a < b then b else a

/-! ## Python numeric primitives -/
/-- Python `int(x)` on a float: truncation toward zero. -/
def pyInt (q : ℚ) : ℤ := Int.tdiv q.num q.den

/-- Python `round(y)` at integer precision: round half to even. -/
def pyRoundInt (y : ℚ) : ℤ :=
  let f := Int.fdiv y.num y.den
  let r := qsub y (Rat.divInt f 1)
  if r < Rat.divInt 1 2 then f
  else if Rat.divInt 1 2 < r then f + 1
  else if f % 2 = 0 then f else f + 1

/-- Python `round(x, 2)` (floats idealised as rationals). -/
def round2 (x : ℚ) : ℚ := Rat.divInt (pyRoundInt (qmul x 100)) 100

/-! ## Python string primitives

The `String` library functions (`trim`, `toLower`, …) are defined by
well-founded recursion over byte positions and do not reduce in the kernel,
so the model works on `List Char` throughout. -/
/-- Python `str.strip()`: remove leading and trailing whitespace. -/
def pyStrip (cs : List Char) : List Char :=
  ((cs.dropWhile (·.isWhitespace)).reverse.dropWhile (·.isWhitespace)).reverse

/-- Python `str.lower()`. -/
def pyLower (cs : List Char) : List Char := cs.map Char.toLower

/-! ## Number extraction (Python `re.findall` on measurement cells) -/
/-- Decimal digits of a token, as a natural number (`int("...")` on a digit
string). -/
def digitsToNat (cs : List Char) : Nat :=
  cs.foldl (fun n c => n * 10 + (c.toNat - '0'.toNat)) 0

/-- Python `float("...")` on a token matching `\d+\.?\d*`. -/
def strToRat (cs : List Char) : ℚ :=
  let intPart := cs.takeWhile (·.isDigit)
  let rest := cs.dropWhile (·.isDigit)
  let fracPart := match rest with
    | '.' :: f => f
    | _ => []
  qadd (Rat.divInt (digitsToNat intPart) 1)
    (Rat.divInt (digitsToNat fracPart) (Int.ofNat (10 ^ fracPart.length)))

/-- `re.findall(r"\d+", s)`: the maximal runs of digits, left to right.
`acc` holds the (reversed) run currently being read. -/
def scanIntsAux : List Char → List Char → List (List Char)
  | acc, [] => if acc.isEmpty then [] else [acc.reverse]
  | acc, c :: rest =>
    if c.isDigit then scanIntsAux (c :: acc) rest
    else if acc.isEmpty then scanIntsAux [] rest
    else acc.reverse :: scanIntsAux [] rest

def scanInts (cs : List Char) : List (List Char) := scanIntsAux [] cs

/-- States of the `\d+\.?\d*` matcher: outside a match, inside the integer
part, or inside the (post-dot) fractional part. `acc` is the reversed match
read so far. -/
inductive NumSt : Type
  | out : NumSt
  | ip (acc : List Char) : NumSt
  | fp (acc : List Char) : NumSt

/-- `re.findall(r"\d+\.?\d*", s)`: leftmost, non-overlapping, greedy. -/
def scanNumsAux : NumSt → List Char → List (List Char)
  | .out, [] => []
  | .ip acc, [] => [acc.reverse]
  | .fp acc, [] => [acc.reverse]
  | .out, c :: rest =>
    if c.isDigit then scanNumsAux (.ip [c]) rest else scanNumsAux .out rest
  | .ip acc, c :: rest =>
    if c.isDigit then scanNumsAux (.ip (c :: acc)) rest
    else if c = '.' then scanNumsAux (.fp ('.' :: acc)) rest
    else acc.reverse :: scanNumsAux .out rest
  | .fp acc, c :: rest =>
    if c.isDigit then scanNumsAux (.fp (c :: acc)) rest
    else acc.reverse :: scanNumsAux .out rest

def scanNums (cs : List Char) : List (List Char) := scanNumsAux .out cs

/-! ## `parse_range` and `age_matches` (src/utils.py) -/
/-- `utils.parse_range`: extract every numeric substring of the cell; mean of
several, the number itself for one, `none` for none.  A missing/NaN cell is
`none`. -/
def parse_range (value : Option String) : Option ℚ :=
  match value with
  | none => none
  | some v0 =>
    let v := pyStrip v0.data
    let ms := scanNums v
    if ms.isEmpty then none
    else
      let nums := ms.map strToRat
      if 1 < nums.length then some (qdiv (qsum nums) (Rat.divInt (Int.ofNat nums.length) 1))
      else some (nums.headD 0)

/-- Python `str.isdigit()` (ASCII): nonempty and all digits. -/
def isdigitStr (cs : List Char) : Bool :=
  !cs.isEmpty && cs.all (·.isDigit)

/-- `utils.age_matches`: does `target_age` fall into the dataset's
`Age (Years)` cell?  The source returns from the dashed-range branch only
when exactly two numbers were found, otherwise control falls through to the
plain-digits check; the guard below expresses that flow. -/
def age_matches (age_str : Option String) (target_age : ℚ) : Bool :=
  match age_str with
  | none => false
  | some s0 =>
    let s := pyStrip s0.data
    if s.contains '&' then
      ((scanInts s).map (fun ds => (digitsToNat ds : ℤ))).contains (pyInt target_age)
    else if (s.contains '–' || s.contains '-') && (scanInts s).length == 2 then
      match (scanInts s).map (fun ds => (digitsToNat ds : ℤ)) with
      | [a, b] => decide (a ≤ pyInt target_age ∧ pyInt target_age ≤ b)
      | _ => false
    else if isdigitStr s then
      (digitsToNat s : ℤ) == pyInt target_age
    else false

/-! ## Brand resolver (src/utils.py `get_brand_measurements`) -/
/-- Does `pat` occur as a (contiguous) substring of `s`?  (Python `in`,
pandas `str.contains` with a literal pattern.) -/
def substrOccurs (pat : List Char) : List Char → Bool
  | [] => pat.isEmpty
  | c :: rest => pat.isPrefixOf (c :: rest) || substrOccurs pat rest

/-- Case-insensitive containment of `pat` in `s`
(`pat in s.lower()` / `str.contains(pat, case=False)` for a
regex-metacharacter-free pattern). -/
def containsCI (s pat : String) : Bool :=
  substrOccurs (pyLower pat.data) (pyLower s.data)

/-- First match of the pattern `\((B|G)\)` in a brand label
(`df['Brand'].str.extract(r'\((B|G)\)')`). -/
def extractBG : List Char → Option String
  | '(' :: 'B' :: ')' :: _ => some "B"
  | '(' :: 'G' :: ')' :: _ => some "G"
  | _ :: rest => extractBG rest
  | [] => none

/-- One row of the brand-size reference table.  A NaN/absent cell is `none`;
a NaN `Brand` cell is modelled as `""` (pandas `na=False` likewise excludes
it from every `str.contains` filter). -/
structure Row : Type where
  brand : String
  ageYears : Option String
  chestCm : Option String
  waistCm : Option String
  hipsCm : Option String
deriving DecidableEq

/-- The brand-level filtering of `utils.get_brand_measurements` (everything
before the age filter): H&M rows are narrowed by the embedded (B)/(G)
gender marker, falling back to all H&M rows when no marker matches; any
other brand filters by case-insensitive substring match. -/
def brandFiltered (df : List Row) (brand gender : String) : List Row :=
  let gender_marker := if ["male", "m", "boy"].contains (String.mk (pyLower gender.data))
    then "B" else "G"
  if containsCI brand "h&m" then
    let filtered_by_brand := df.filter (fun r => containsCI r.brand "h&m")
    let filtered_by_gender :=
      filtered_by_brand.filter (fun r => extractBG r.brand.data == some gender_marker)
    if !filtered_by_gender.isEmpty then filtered_by_gender else filtered_by_brand
  else
    df.filter (fun r => containsCI r.brand brand)

/-- `utils.get_brand_measurements`, given the parsed reference table
(`pd.read_csv` is outside the model; an unreadable file yields `none`
upstream of this function).  Always returns either `none` or a dict with
exactly the keys Chest, Waist, Hip, each value being the parsed cell
(possibly `none`). -/
def get_brand_measurements (df : List Row) (brand : String) (age : ℚ) (gender : String) :
    Option (List (String × Option ℚ)) :=
  match (brandFiltered df brand gender).filter (fun r => age_matches r.ageYears age) with
  | [] => none
  | row :: _ =>
    some [("Chest", parse_range row.chestCm),
          ("Waist", parse_range row.waistCm),
          ("Hip", parse_range row.hipsCm)]

/-! ## Formula estimator (src/utils.py) -/
/-- `utils.calculate_css_measurements`: Chest, Shoulder, Sleeve from age,
gender and height. -/
def calculate_css_measurements (age : ℚ) (gender_str : String) (height : ℚ) :
    ℚ × ℚ × ℚ :=
  let chest :=
    if age < 2 then qmul height (q2 51)
    else if age < 6 then qmul height (q2 49)
    else qmul height (q2 47)
  let shoulder :=
    if gender_str = "male" then qmul height (if age < 6 then q2 22 else q2 23)
    else qmul height (if age < 6 then q2 21 else q2 22)
  let sleeve :=
    if age < 2 then qmul height (q2 28)
    else if age < 6 then qmul height (q2 30)
    else qmul height (q2 32)
  (chest, shoulder, sleeve)

/-- `utils.calculate_additional_measurements` (tier-2 estimator).  The
`gender_str` and `chest` parameters are accepted but unused, exactly as in
the source: `chest` is shadowed by `height * 0.52` before first use. -/
def calculate_additional_measurements (age : ℚ) (gender_str : String) (height chest : ℚ) :
    List (String × ℚ) :=
  let inseam := qmul height (if age ≤ 5 then q2 38 else if age ≤ 10 then q2 42 else q2 45)
  let toplength := qmul height (if age ≤ 5 then q2 35 else if age ≤ 10 then q2 38 else q2 40)
  let kurtalength := qmul height (if age ≤ 5 then q2 40 else if age ≤ 10 then q2 43 else q2 46)
  let pant_length := qadd inseam (qmul height (q2 5))
  let knee_length :=
    if age ≤ 5 then qmul height (q2 26) else if age ≤ 10 then qmul height (q2 27)
    else qmul height (q2 28)
  let midi_length :=
    if age ≤ 5 then qmul height (q2 35) else if age ≤ 10 then qmul height (q2 40)
    else qmul height (q2 45)
  let ankle_length :=
    if age ≤ 5 then qmul height (q2 48) else if age ≤ 10 then qmul height (q2 50)
    else qmul height (q2 55)
  let maxilength :=
    if age ≤ 5 then qmul height (q2 55) else if age ≤ 10 then qmul height (q2 58)
    else qmul height (q2 60)
  let armhole := qmul height (q2 12)
  let chest := qmul height (q2 52)
  let neck_depth_front := qmul chest (q3 115)
  let neck_depth_back := qmul chest (q2 7)
  let neck_depth_front := pymax neck_depth_front (q2 250)
  let neck_depth_back := pymax neck_depth_back (q2 150)
  [("Inseam", round2 inseam),
   ("Armhole", round2 armhole),
   ("TopLength", round2 toplength),
   ("KurtaLength", round2 kurtalength),
   ("PantLength", round2 pant_length),
   ("KneeLength", round2 knee_length),
   ("MidiLength", round2 midi_length),
   ("AnkleLength", round2 ankle_length),
   ("MaxiLength", round2 maxilength),
   ("NeckDepthBack", round2 neck_depth_back),
   ("NeckDepthFront", round2 neck_depth_front)]

/-! ## Input validation (src/utils.py) -/
/-- The request body's `gender` field: Python lets it be a string or an
integer. -/
inductive GenderIn : Type
  | str (s : String) : GenderIn
  | int (n : ℤ) : GenderIn
deriving DecidableEq

/-- `utils.convert_gender`: normalise to 1 (male) / 2 (female); unmatched
strings fall through to the default 1, integers pass through unchanged. -/
def convert_gender : GenderIn → ℤ
  | .str s =>
    if ["male", "m"].contains (String.mk (pyLower s.data)) then 1
    else if ["female", "f"].contains (String.mk (pyLower s.data)) then 2
    else 1
  | .int n => n

/-- A JSON request body, restricted to the fields the two routes read.
`none` models an absent key.  (Bodies whose fields have entirely wrong JSON
types — e.g. a numeric `parent_id` — are outside the model.) -/
structure ReqData : Type where
  parent_id : Option String := none
  child_id : Option String := none
  height : Option ℚ := none
  weight : Option ℚ := none
  gender : Option GenderIn := none
  age : Option ℚ := none
  brand : Option String := none
  measurements : Option (List (String × ℚ)) := none
deriving DecidableEq

/-- Python `len(data)`: the number of keys present in the body. -/
def reqLen (d : ReqData) : Nat :=
  (if d.parent_id.isSome then 1 else 0) + (if d.child_id.isSome then 1 else 0)
    + (if d.height.isSome then 1 else 0) + (if d.weight.isSome then 1 else 0)
    + (if d.gender.isSome then 1 else 0) + (if d.age.isSome then 1 else 0)
    + (if d.brand.isSome then 1 else 0) + (if d.measurements.isSome then 1 else 0)

def valid_measurement_keys : List String :=
  ["Waist", "Hip", "Bicep", "Neck", "Wrist", "Chest", "Shoulder", "Sleeve"]

/-- `utils.validate_measurements_format`: each key must be in the restricted
vocabulary and each value a positive number.  (Values are numeric in the
model, so `float(value)` cannot fail; the non-dict case is excluded by
typing.) -/
def validate_measurements_format : List (String × ℚ) → Bool × String
  | [] => (true, "Valid")
  | (key, value) :: rest =>
    if !(valid_measurement_keys.contains key) then
      (false, "Invalid measurement key: " ++ key ++ ". Valid keys are: "
        ++ String.intercalate ", " valid_measurement_keys)
    else if value ≤ 0 then
      (false, "Measurement " ++ key ++ " must be a positive number")
    else validate_measurements_format rest

/-- `utils.validate_input`.  Note the source's
`for_update and len(data) == 2 and 'measurements' in data` branch: it is
kept verbatim although it is unreachable (both identifier fields are known
present by then, so a body with `measurements` has at least three keys). -/
def validate_input (data : ReqData) (for_update : Bool) : Bool × String :=
  if data.parent_id.isNone then (false, "Missing required field: parent_id")
  else if data.child_id.isNone then (false, "Missing required field: child_id")
  else if !for_update && data.height.isNone then (false, "Missing required field: height")
  else if !for_update && data.weight.isNone then (false, "Missing required field: weight")
  else if !for_update && data.gender.isNone then (false, "Missing required field: gender")
  else if !for_update && data.age.isNone then (false, "Missing required field: age")
  else if (pyStrip ((data.parent_id.getD "").data)).isEmpty then
    (false, "Parent ID must be a non-empty string")
  else if (pyStrip ((data.child_id.getD "").data)).isEmpty then
    (false, "Child ID must be a non-empty string")
  else if for_update && reqLen data == 2 && data.measurements.isSome then
    validate_measurements_format (data.measurements.getD [])
  else if for_update then (true, "Valid")
  else
    let age := data.age.getD 0
    if ¬(3 ≤ age ∧ age ≤ 18) then (false, "Age must be between 3 and 18 years")
    else
      let weight := data.weight.getD 0
      if ¬(10 ≤ weight ∧ weight ≤ 120) then
        (false, "Weight must be between 10.0 and 120.0 kg")
      else
        let height := data.height.getD 0
        if ¬(80 ≤ height ∧ height ≤ 220) then
          (false, "Height must be between 80.0 and 220.0 cm")
        else
          match data.gender.getD (.int 1) with
          | .str s =>
            if !(["male", "female", "m", "f"].contains (String.mk (pyLower s.data))) then
              (false, "Gender must be \x27male\x27, \x27female\x27, \x27m\x27, or \x27f\x27")
            else (true, "Valid")
          | .int n =>
            if !(n == 1 || n == 2) then (false, "Gender must be 1 (male) or 2 (female)")
            else (true, "Valid")

/-! ## The measurement store (src/routes.py) -/
/-- The `input_parameters` snapshot of a record. -/
structure InputParams : Type where
  age : ℚ
  gender : String
  weight : ℚ
  height : ℚ
  brand : Option String
deriving DecidableEq

/-- One persisted measurement record (leaf of the JSON store). -/
structure MeasurementRecord : Type where
  parent_id : String
  child_id : String
  input_parameters : InputParams
  measurements_cm : List (String × ℚ)
  measurements_inches : List (String × ℚ)
  prediction_timestamp : Nat
  last_updated : Nat
  is_predicted : Bool
  is_manually_updated : Bool
deriving DecidableEq

abbrev ChildMap : Type := List (String × MeasurementRecord)

/-- The persisted store: parent_id → child_id → record. -/
abbrev Store : Type := List (String × ChildMap)

def lookup2 (st : Store) (parent_id child_id : String) : Option MeasurementRecord :=
  match dlookup parent_id st with
  | none => none
  | some children => dlookup child_id children

/-- All records in the store, in storage order. -/
def allRecords (st : Store) : List MeasurementRecord :=
  st.foldr (fun pc acc => pc.2.map Prod.snd ++ acc) []

/-- The opaque regression model: `[age, gender, height, weight]` in, the
`(waist, hip, bicep, wrist)` head of its output row out. -/
abbrev Predictor : Type := ℚ → ℤ → ℚ → ℚ → ℚ × ℚ × ℚ × ℚ

/-- `'male' if gender == 1 else 'female'` (routes.py). -/
def gender_string (gender : ℤ) : String := if gender == 1 then "male" else "female"

/-- The `measurements_inches` comprehension on an all-float dict. -/
def inchesOf (cm : List (String × ℚ)) : List (String × ℚ) :=
  cm.map (fun kv => (kv.1, round2 (qdiv kv.2 (q2 254))))

/-- Run the `measurements_inches` comprehension's value expression over a
dict that may hold Python `None`s: the first `None` raises `TypeError`,
modelled as `none`; otherwise the unwrapped dict. -/
def allSome : List (String × Option ℚ) → Option (List (String × ℚ))
  | [] => some []
  | (k, some v) :: rest => (allSome rest).map (fun r => (k, v) :: r)
  | (_, none) :: _ => none

/-- What a route call returns to the HTTP layer: a record echoed with
success, or a status code and error message. -/
inductive RouteOut : Type
  | ok (r : MeasurementRecord) : RouteOut
  | err (code : Nat) (msg : String) : RouteOut
deriving DecidableEq

/-- routes.py 58–64: `measurements = {}`, then
`if brand_meas: measurements.update(brand_meas)`. -/
def seedStep (brand_meas : Option (List (String × Option ℚ))) : List (String × Option ℚ) :=
  match brand_meas with
  | some bm => dUpdate [] bm
  | none => []

/-- routes.py 66–83: `if not measurements:` run the model and take the first
four outputs as Waist, Hip, Bicep, Wrist, rounded. -/
def fallbackStep (pred4 : ℚ × ℚ × ℚ × ℚ) (measurements : List (String × Option ℚ)) :
    List (String × Option ℚ) :=
  if measurements.isEmpty then
    dUpdate measurements
      [("Waist", some (round2 pred4.1)),
       ("Hip", some (round2 pred4.2.1)),
       ("Bicep", some (round2 pred4.2.2.1)),
       ("Wrist", some (round2 pred4.2.2.2))]
  else measurements

/-- routes.py 58–99: assemble `measurements` from brand seed, model
fallback, tier-1 formulas (Chest only if absent; Shoulder/Sleeve always)
and the tier-2 synthetic set. -/
def assemble_measurements (pred : Predictor) (brand_meas : Option (List (String × Option ℚ)))
    (age : ℚ) (gender : ℤ) (height weight : ℚ) : List (String × Option ℚ) :=
  let m0 := seedStep brand_meas
  let m1 := fallbackStep (pred age gender height weight) m0
  let css := calculate_css_measurements age (gender_string gender) height
  let chest := css.1
  let m2 :=
    if (dlookup "Chest" m1).isNone then dinsert "Chest" (some (round2 chest)) m1 else m1
  let m3 := dUpdate m2
    [("Shoulder", some (round2 css.2.1)), ("Sleeve", some (round2 css.2.2))]
  let synthetic := calculate_additional_measurements age (gender_string gender) height chest
  dUpdate m3 (synthetic.map (fun kv => (kv.1, some kv.2)))

/-- `measurements_data[parent_id][child_id] = user_data` (creating the
parent bucket when absent), i.e. the store after `save_measurements`. -/
def persist (st : Store) (parent_id child_id : String) (r : MeasurementRecord) : Store :=
  dinsert parent_id (dinsert child_id r ((dlookup parent_id st).getD [])) st

/-- routes.py `predict_measurements` (the `/predict-measurements` route),
from JSON parsing onward.  File I/O failure of `save_measurements` is only
logged by the source, so the model assumes the write succeeds. -/
def predict_measurements (model : Option Predictor) (df : List Row) (st : Store)
    (now : Nat) (data : ReqData) : RouteOut × Store :=
  if !(validate_input data false).1 then (.err 400 (validate_input data false).2, st)
  else
    match model with
    | none => (.err 500 "Model not initialized", st)
    | some pred =>
      match data.parent_id, data.child_id, data.age, data.gender, data.weight, data.height with
      | some parent_id, some child_id, some age, some gender0, some weight, some height =>
        let gender := convert_gender gender0
        let brand := data.brand
        let brand_meas :=
          match brand with
          | some b =>
            if b ≠ "" then get_brand_measurements df b age (gender_string gender) else none
          | none => none
        let measurements := assemble_measurements pred brand_meas age gender height weight
        match allSome measurements with
        | none => (.err 500 "Internal server error", st)
        | some cm =>
          let user_data : MeasurementRecord := {
            parent_id := parent_id
            child_id := child_id
            input_parameters := {
              age := age
              gender := gender_string gender
              weight := weight
              height := height
              brand := match brand with
                | some b => if b ≠ "" then some b else none
                | none => none }
            measurements_cm := cm
            measurements_inches := inchesOf cm
            prediction_timestamp := now
            last_updated := now
            is_predicted := true
            is_manually_updated := false }
          (.ok user_data, persist st parent_id child_id user_data)
      | _, _, _, _, _, _ => (.err 500 "Internal server error", st)

def not_found_msg (parent_id child_id : String) : String :=
  "Child " ++ child_id ++ " under parent " ++ parent_id
    ++ " not found. Please make a prediction first."

/-- routes.py `update_measurements` (the `/update-measurements` route). -/
def update_measurements (st : Store) (now : Nat) (data : ReqData) : RouteOut × Store :=
  if !(validate_input data true).1 then (.err 400 (validate_input data true).2, st)
  else
    match data.parent_id, data.child_id with
    | some parent_id, some child_id =>
      match dlookup parent_id st with
      | none => (.err 404 (not_found_msg parent_id child_id), st)
      | some children =>
        match dlookup child_id children with
        | none => (.err 404 (not_found_msg parent_id child_id), st)
        | some user_data =>
          match data.measurements with
          | some ms =>
            if !(validate_measurements_format ms).1 then
              (.err 400 (validate_measurements_format ms).2, st)
            else
              let cm := dUpdate user_data.measurements_cm
                (ms.map (fun kv => (kv.1, round2 kv.2)))
              let user_data2 := { user_data with
                measurements_cm := cm
                measurements_inches := inchesOf cm
                last_updated := now
                is_manually_updated := true }
              (.ok user_data2, dinsert parent_id (dinsert child_id user_data2 children) st)
          | none =>
            (.ok user_data, dinsert parent_id (dinsert child_id user_data children) st)
    | _, _ => (.err 500 "Internal server error", st)

/-- A predict request body with valid identifiers and gender, used to state
the validation-range claims. -/
def rangeReq (a w h : ℚ) : ReqData :=
  { parent_id := some "p1", child_id := some "c1", height := some h,
    weight := some w, gender := some (.str "male"), age := some a }

/-- A reference-table row matching brand "Zara" at age 7 whose Waist cell is
missing and whose Hips cell is unparseable. -/
def c2Row : Row :=
  { brand := "ZaraKids", ageYears := some "7", chestCm := some "50",
    waistCm := none, hipsCm := some "n/a" }

/-- The C1 request: parent "p1", child "c1", age 7, gender "male",
weight 25, height 120, no brand. -/
def c1Req : ReqData :=
  { parent_id := some "p1", child_id := some "c1", height := some 120,
    weight := some 25, gender := some (.str "male"), age := some 7 }

/-- A brand-less predict request body with all fields present. -/
def mkPredictReq (p c : String) (age weight height : ℚ) (g : GenderIn) : ReqData :=
  { parent_id := some p, child_id := some c, height := some height,
    weight := some weight, gender := some g, age := some age }

/-- The `measurements_cm` dict produced for C1's request (age 7, male,
height 120): predictor head values rounded, then formula Chest, Shoulder,
Sleeve, then the tier-2 synthetic set. -/
def c1Cm (pred : Predictor) : List (String × ℚ) :=
  [("Waist", round2 (pred 7 1 120 25).1),
   ("Hip", round2 (pred 7 1 120 25).2.1),
   ("Bicep", round2 (pred 7 1 120 25).2.2.1),
   ("Wrist", round2 (pred 7 1 120 25).2.2.2),
   ("Chest", round2 (qmul 120 (q2 47))),
   ("Shoulder", round2 (qmul 120 (q2 23))),
   ("Sleeve", round2 (qmul 120 (q2 32))),
   ("Inseam", round2 (qmul 120 (q2 42))),
   ("Armhole", round2 (qmul 120 (q2 12))),
   ("TopLength", round2 (qmul 120 (q2 38))),
   ("KurtaLength", round2 (qmul 120 (q2 43))),
   ("PantLength", round2 (qadd (qmul 120 (q2 42)) (qmul 120 (q2 5)))),
   ("KneeLength", round2 (qmul 120 (q2 27))),
   ("MidiLength", round2 (qmul 120 (q2 40))),
   ("AnkleLength", round2 (qmul 120 (q2 50))),
   ("MaxiLength", round2 (qmul 120 (q2 58))),
   ("NeckDepthBack", round2 (pymax (qmul (qmul 120 (q2 52)) (q2 7)) (q2 150))),
   ("NeckDepthFront", round2 (pymax (qmul (qmul 120 (q2 52)) (q3 115)) (q2 250)))]

/-- The record C1's request persists. -/
def c1Rec (pred : Predictor) (now : Nat) : MeasurementRecord :=
  { parent_id := "p1", child_id := "c1",
    input_parameters :=
      { age := 7, gender := "male", weight := 25, height := 120, brand := none },
    measurements_cm := c1Cm pred,
    measurements_inches := inchesOf (c1Cm pred),
    prediction_timestamp := now, last_updated := now,
    is_predicted := true, is_manually_updated := false }

/-- An update request body: identifiers plus an optional measurements dict. -/
def mkUpdateReq (p c : String) (ms : Option (List (String × ℚ))) : ReqData :=
  { parent_id := some p, child_id := some c, measurements := ms }

/-- The record produced by a successful measurements update: supplied keys
merged (rounded), inches recomputed in full, `last_updated` refreshed,
`is_manually_updated` set. -/
def updRec (r0 : MeasurementRecord) (ms : List (String × ℚ)) (now : Nat) :
    MeasurementRecord :=
  { r0 with
    measurements_cm := dUpdate r0.measurements_cm (ms.map (fun kv => (kv.1, round2 kv.2)))
    measurements_inches :=
      inchesOf (dUpdate r0.measurements_cm (ms.map (fun kv => (kv.1, round2 kv.2))))
    last_updated := now
    is_manually_updated := true }

/-- The derived-inches invariant of a record: `measurements_inches` is
exactly the 2-decimal inch conversion of `measurements_cm`, key for key. -/
def inchesInv (r : MeasurementRecord) : Prop :=
  r.measurements_inches = inchesOf r.measurements_cm

/-- A fixed predictor used by the concrete witnesses. -/
def wPred : Predictor := fun _ _ _ _ => (20, 30, 15, 10)

/-- A fixed persisted record used by the concrete witnesses. -/
def wRec : MeasurementRecord :=
  { parent_id := "p1"
    child_id := "c1"
    input_parameters := { age := 7, gender := "male", weight := 25, height := 120,
                          brand := none }
    measurements_cm := [("Waist", 50), ("Chest", 60)]
    measurements_inches := inchesOf [("Waist", 50), ("Chest", 60)]
    prediction_timestamp := 1
    last_updated := 1
    is_predicted := true
    is_manually_updated := false }

/-- A store holding `wRec` under ("p1", "c1"). -/
def wStore : Store := [("p1", [("c1", wRec)])]

theorem dlookup_dinsert_self {α : Type} (k : String) (v : α) (d : List (String × α)) :
    dlookup k (dinsert k v d) = some v := by
  induction d with
  | nil => simp [dinsert, dlookup]
  | cons hd tl ih =>
    obtain ⟨k0, v0⟩ := hd
    by_cases h : k0 = k
    · simp [dinsert, dlookup, h]
    · simp [dinsert, dlookup, h, ih]

theorem dlookup_dinsert_ne {α : Type} {k k' : String} (v : α) (d : List (String × α))
    (h : k' ≠ k) : dlookup k' (dinsert k v d) = dlookup k' d := by
  induction d with
  | nil => simp [dinsert, dlookup, Ne.symm h]
  | cons hd tl ih =>
    obtain ⟨k0, v0⟩ := hd
    by_cases h0 : k0 = k
    · simp [dinsert, dlookup, h0, Ne.symm h]
    · by_cases h1 : k0 = k' <;> simp [dinsert, dlookup, h0, h1, h, ih]

/-- Assigning a key the value it already has leaves the dict unchanged. -/
theorem dinsert_lookup_eq {α : Type} {k : String} {v : α} {d : List (String × α)}
    (h : dlookup k d = some v) : dinsert k v d = d := by
  induction d with
  | nil => simp [dlookup] at h
  | cons hd tl ih =>
    obtain ⟨k0, v0⟩ := hd
    by_cases h0 : k0 = k
    · subst h0
      simp [dlookup] at h
      simp [dinsert, h]
    · simp only [dlookup, if_neg h0] at h
      simp [dinsert, h0, ih h]

theorem dlookup_dUpdate_not_mem {α : Type} {k : String} (d : List (String × α))
    {ms : List (String × α)} (h : k ∉ dkeys ms) :
    dlookup k (dUpdate d ms) = dlookup k d := by
  induction ms generalizing d with
  | nil => rfl
  | cons hd tl ih =>
    obtain ⟨k0, v0⟩ := hd
    simp only [dkeys, List.map_cons, List.mem_cons, not_or] at h
    show dlookup k (dUpdate (dinsert k0 v0 d) tl) = dlookup k d
    rw [ih _ h.2, dlookup_dinsert_ne _ _ h.1]

theorem dlookup_dUpdate_mem {α : Type} {k : String} {v : α} (d : List (String × α))
    {ms : List (String × α)} (hnd : (dkeys ms).Nodup) (h : (k, v) ∈ ms) :
    dlookup k (dUpdate d ms) = some v := by
  induction ms generalizing d with
  | nil => simp at h
  | cons hd tl ih =>
    obtain ⟨k0, v0⟩ := hd
    simp only [dkeys, List.map_cons, List.nodup_cons] at hnd
    rcases List.mem_cons.mp h with heq | hmem
    · cases heq
      show dlookup k (dUpdate (dinsert k v d) tl) = some v
      rw [dlookup_dUpdate_not_mem _ hnd.1, dlookup_dinsert_self]
    · exact ih _ hnd.2 hmem

/-- Re-assigning pairs that the dict already holds changes nothing. -/
theorem dUpdate_id_of_lookup {α : Type} {d : List (String × α)} {ms : List (String × α)}
    (h : ∀ kv ∈ ms, dlookup kv.1 d = some kv.2) : dUpdate d ms = d := by
  induction ms with
  | nil => rfl
  | cons hd tl ih =>
    show dUpdate (dinsert hd.1 hd.2 d) tl = d
    rw [dinsert_lookup_eq (h hd (by simp))]
    exact ih (fun kv hkv => h kv (by simp [hkv]))

/-- Applying the same (duplicate-free) batch of assignments twice is the same
as applying it once. -/
theorem dUpdate_idem {α : Type} (d : List (String × α)) {ms : List (String × α)}
    (hnd : (dkeys ms).Nodup) : dUpdate (dUpdate d ms) ms = dUpdate d ms :=
  dUpdate_id_of_lookup (fun kv hkv => dlookup_dUpdate_mem d hnd hkv)

theorem dlookup_map_snd {α β : Type} (f : α → β) (k : String) (d : List (String × α)) :
    dlookup k (d.map (fun kv => (kv.1, f kv.2))) = (dlookup k d).map f := by
  induction d with
  | nil => rfl
  | cons hd tl ih =>
    by_cases h : hd.1 = k <;> simp [dlookup, h, ih]

theorem dkeys_map_snd {α β : Type} (f : α → β) (d : List (String × α)) :
    dkeys (d.map (fun kv => (kv.1, f kv.2))) = dkeys d := by
  induction d with
  | nil => rfl
  | cons hd tl ih => simp [dkeys]

theorem qmul_eq (a b : ℚ) : qmul a b = a * b := by
  rw [qmul, Rat.divInt_eq_div]
  push_cast
  rw [← div_mul_div_comm, Rat.num_div_den, Rat.num_div_den]

theorem qinv_eq (b : ℚ) : qinv b = b⁻¹ := by
  rw [qinv, Rat.divInt_eq_div, ← Rat.num_div_den b, inv_div, Rat.num_div_den]
  norm_cast

theorem qdiv_eq (a b : ℚ) : qdiv a b = a / b := by
  rw [qdiv, qmul_eq, qinv_eq, div_eq_mul_inv]

theorem qadd_eq (a b : ℚ) : qadd a b = a + b := by
  rw [qadd, Rat.divInt_eq_div]
  push_cast
  conv_rhs => rw [← Rat.num_div_den a, ← Rat.num_div_den b]
  rw [div_add_div _ _ (by positivity : (a.den : ℚ) ≠ 0) (by positivity : (b.den : ℚ) ≠ 0)]
  ring_nf

theorem qsub_eq (a b : ℚ) : qsub a b = a - b := by
  rw [qsub, Rat.divInt_eq_div]
  push_cast
  conv_rhs => rw [← Rat.num_div_den a, ← Rat.num_div_den b]
  rw [div_sub_div _ _ (by positivity : (a.den : ℚ) ≠ 0) (by positivity : (b.den : ℚ) ≠ 0)]
  ring_nf

theorem qsum_eq (l : List ℚ) : qsum l = l.sum := by
  induction l with
  | nil => rfl
  | cons x xs ih => rw [qsum, qadd_eq, ih, List.sum_cons]

theorem q2_eq (n : ℤ) : q2 n = (n : ℚ) / 100 := by
  rw [q2, Rat.divInt_eq_div]; norm_num

theorem q3_eq (n : ℤ) : q3 n = (n : ℚ) / 1000 := by
  rw [q3, Rat.divInt_eq_div]; norm_num

theorem pymax_eq (a b : ℚ) : pymax a b = max a b := by
  rw [pymax, max_def]
  by_cases h : a < b
  · simp [h, le_of_lt h]
  · by_cases h2 : a ≤ b
    · simp [h, h2, le_antisymm h2 (not_lt.mp h)]
    · simp [h, h2]

/-! ## Claim theorems -/
/-- C7: the tier-2 estimator ignores its gender and chest arguments (chest
is recomputed internally as height×0.52) and returns, for every age and
height, the secondary-length map with bands at age≤5 / age≤10 / older,
every output rounded to two decimal places. -/
theorem C7_tier2_secondary_lengths (age height chest chest' : ℚ)
    (gender_str gender' : String) :
    calculate_additional_measurements age gender_str height chest
      = calculate_additional_measurements age gender' height chest' ∧
    calculate_additional_measurements age gender_str height chest
      = [("Inseam",
            round2 (height * (if age ≤ 5 then 0.38 else if age ≤ 10 then 0.42 else 0.45))),
         ("Armhole", round2 (height * 0.12)),
         ("TopLength",
            round2 (height * (if age ≤ 5 then 0.35 else if age ≤ 10 then 0.38 else 0.40))),
         ("KurtaLength",
            round2 (height * (if age ≤ 5 then 0.40 else if age ≤ 10 then 0.43 else 0.46))),
         ("PantLength",
            round2 (height * (if age ≤ 5 then 0.38 else if age ≤ 10 then 0.42 else 0.45)
              + height * 0.05)),
         ("KneeLength",
            round2 (height * (if age ≤ 5 then 0.26 else if age ≤ 10 then 0.27 else 0.28))),
         ("MidiLength",
            round2 (height * (if age ≤ 5 then 0.35 else if age ≤ 10 then 0.40 else 0.45))),
         ("AnkleLength",
            round2 (height * (if age ≤ 5 then 0.48 else if age ≤ 10 then 0.50 else 0.55))),
         ("MaxiLength",
            round2 (height * (if age ≤ 5 then 0.55 else if age ≤ 10 then 0.58 else 0.60))),
         ("NeckDepthBack", round2 (max (0.07 * (height * 0.52)) 1.5)),
         ("NeckDepthFront", round2 (max (0.115 * (height * 0.52)) 2.5))] := by
  constructor
  · rfl
  · simp only [calculate_additional_measurements, qmul_eq, qadd_eq, q2_eq, q3_eq, pymax_eq]
    split_ifs <;> norm_num <;> ring_nf <;> exact ⟨trivial, trivial⟩

theorem contains_false_of_all_digits {c : Char} (hc : c.isDigit = false) {cs : List Char}
    (h : cs.all (·.isDigit) = true) : cs.contains c = false := by
  induction cs with
  | nil => rfl
  | cons a as ih =>
    simp only [List.all_cons, Bool.and_eq_true] at h
    simp only [List.contains_cons, Bool.or_eq_false_iff]
    refine ⟨?_, ih h.2⟩
    by_cases hac : c = a
    · rw [hac, h.1] at hc; cases hc
    · simp [beq_eq_false_iff_ne, hac]

/-- C8: `parse_range` returns the mean of the extracted numbers when there
are several, the number itself when there is exactly one, `none` when there
are none (en-dash and hyphen tolerated, e.g. both spellings of 71–78 give
74.5); `age_matches` is membership of the truncated target age for
ampersand lists, an inclusive bounds check for two-number dashed ranges,
integer equality for all-digit cells, and false for every other format. -/
theorem C8_dataset_parsing :
    (∀ v : String, parse_range (some v) = none ↔ scanNums (pyStrip v.data) = []) ∧
    (∀ (v : String) (m : List Char), scanNums (pyStrip v.data) = [m] →
      parse_range (some v) = some (strToRat m)) ∧
    (∀ (v : String) (ms : List (List Char)), scanNums (pyStrip v.data) = ms →
      1 < ms.length →
      parse_range (some v) = some ((ms.map strToRat).sum / (ms.length : ℚ))) ∧
    parse_range none = none ∧
    parse_range (some "71–78") = some 74.5 ∧
    parse_range (some "71-78") = some 74.5 ∧
    (∀ t : ℚ, age_matches none t = false) ∧
    (∀ (s : String) (t : ℚ), (pyStrip s.data).contains '&' = true →
      (age_matches (some s) t = true ↔
        pyInt t ∈ (scanInts (pyStrip s.data)).map (fun ds => (digitsToNat ds : ℤ)))) ∧
    (∀ (s : String) (t : ℚ) (a b : ℤ), (pyStrip s.data).contains '&' = false →
      ((pyStrip s.data).contains '–' || (pyStrip s.data).contains '-') = true →
      (scanInts (pyStrip s.data)).map (fun ds => (digitsToNat ds : ℤ)) = [a, b] →
      (age_matches (some s) t = true ↔ a ≤ pyInt t ∧ pyInt t ≤ b)) ∧
    (∀ (s : String) (t : ℚ), isdigitStr (pyStrip s.data) = true →
      (age_matches (some s) t = true ↔ (digitsToNat (pyStrip s.data) : ℤ) = pyInt t)) ∧
    (∀ (s : String) (t : ℚ), (pyStrip s.data).contains '&' = false →
      (((pyStrip s.data).contains '–' || (pyStrip s.data).contains '-')
        && (scanInts (pyStrip s.data)).length == 2) = false →
      isdigitStr (pyStrip s.data) = false →
      age_matches (some s) t = false) := by
  refine ⟨?_, ?_, ?_, rfl, ?_, ?_, fun _ => rfl, ?_, ?_, ?_, ?_⟩
  · intro v
    cases h : scanNums (pyStrip v.data) with
    | nil => simp [parse_range, h]
    | cons a as =>
      simp [parse_range, h]
      split <;> simp
  · intro v m h
    simp [parse_range, h]
  · intro v ms h hlen
    have hne : ms.isEmpty = false := by
      cases ms with
      | nil => simp at hlen
      | cons a as => rfl
    simp only [parse_range, h, hne, Bool.false_eq_true, if_false, hlen, if_pos,
      List.length_map]
    rw [qdiv_eq, qsum_eq, Rat.divInt_eq_div]
    norm_num
  · have h : parse_range (some "71–78") = some (Rat.divInt 149 2) := by decide
    rw [h, Rat.divInt_eq_div]
    norm_num
  · have h : parse_range (some "71-78") = some (Rat.divInt 149 2) := by decide
    rw [h, Rat.divInt_eq_div]
    norm_num
  · intro s t hamp
    have hamp' : '&' ∈ pyStrip s.data := by
      simpa [List.elem_iff] using hamp
    simp [age_matches, hamp, hamp', List.elem_iff]
  · intro s t a b hamp hdash hints
    have hamp' : '&' ∉ pyStrip s.data := by
      simpa [List.elem_iff] using hamp
    have hdash' : '–' ∈ pyStrip s.data ∨ '-' ∈ pyStrip s.data := by
      simpa [List.elem_iff] using hdash
    have hlen' : (scanInts (pyStrip s.data)).length = 2 := by
      have h2 := congrArg List.length hints
      simpa using h2
    simp [age_matches, hamp, hamp', hdash', hlen', hints]
  · intro s t hdig
    have hall : (pyStrip s.data).all (·.isDigit) = true := by
      simp only [isdigitStr, Bool.and_eq_true] at hdig
      exact hdig.2
    have hamp : (pyStrip s.data).contains '&' = false :=
      contains_false_of_all_digits (by decide) hall
    have hen : (pyStrip s.data).contains '–' = false :=
      contains_false_of_all_digits (by decide) hall
    have hhy : (pyStrip s.data).contains '-' = false :=
      contains_false_of_all_digits (by decide) hall
    have hamp' : '&' ∉ pyStrip s.data := by simpa [List.elem_iff] using hamp
    have hen' : '–' ∉ pyStrip s.data := by simpa [List.elem_iff] using hen
    have hhy' : '-' ∉ pyStrip s.data := by simpa [List.elem_iff] using hhy
    simp [age_matches, hamp, hen, hhy, hamp', hen', hhy', hdig]
  · intro s t hamp hguard hdig
    have hamp' : '&' ∉ pyStrip s.data := by simpa [List.elem_iff] using hamp
    rcases Bool.and_eq_false_iff.mp hguard with hdash | hlen
    · have hen' : '–' ∉ pyStrip s.data := by
        simpa [List.elem_iff] using (Bool.or_eq_false_iff.mp hdash).1
      have hhy' : '-' ∉ pyStrip s.data := by
        simpa [List.elem_iff] using (Bool.or_eq_false_iff.mp hdash).2
      simp [age_matches, hamp', hen', hhy', hdig]
    · have hlen' : (scanInts (pyStrip s.data)).length ≠ 2 := by
        simpa using hlen
      simp [age_matches, hamp', hlen', hdig]

/-- C4: predict-input validation is boundary-inclusive — the accepted ranges
are exactly age∈[3,18], weight∈[10,120] kg, height∈[80,220] cm; ages 3 and
18, weights 10 and 120, heights 80 and 220 pass, while age 2, age 19,
weight 5 and height 250 are rejected with their specific messages. -/
theorem C4_validation_boundaries :
    (∀ a w h : ℚ, (validate_input (rangeReq a w h) false).1 = true ↔
      (3 ≤ a ∧ a ≤ 18) ∧ (10 ≤ w ∧ w ≤ 120) ∧ (80 ≤ h ∧ h ≤ 220)) ∧
    validate_input (rangeReq 2 25 120) false
      = (false, "Age must be between 3 and 18 years") ∧
    validate_input (rangeReq 19 25 120) false
      = (false, "Age must be between 3 and 18 years") ∧
    validate_input (rangeReq 7 5 120) false
      = (false, "Weight must be between 10.0 and 120.0 kg") ∧
    validate_input (rangeReq 7 25 250) false
      = (false, "Height must be between 80.0 and 220.0 cm") ∧
    (validate_input (rangeReq 3 25 120) false).1 = true ∧
    (validate_input (rangeReq 18 25 120) false).1 = true ∧
    (validate_input (rangeReq 7 10 120) false).1 = true ∧
    (validate_input (rangeReq 7 120 120) false).1 = true ∧
    (validate_input (rangeReq 7 25 80) false).1 = true ∧
    (validate_input (rangeReq 7 25 220) false).1 = true := by
  have key : ∀ a w h : ℚ, validate_input (rangeReq a w h) false =
      (if ¬(3 ≤ a ∧ a ≤ 18) then (false, "Age must be between 3 and 18 years")
       else if ¬(10 ≤ w ∧ w ≤ 120) then (false, "Weight must be between 10.0 and 120.0 kg")
       else if ¬(80 ≤ h ∧ h ≤ 220) then (false, "Height must be between 80.0 and 220.0 cm")
       else (true, "Valid")) := fun a w h => rfl
  refine ⟨?_, by decide, by decide, by decide, by decide, by decide, by decide,
    by decide, by decide, by decide, by decide⟩
  intro a w h
  rw [key]
  by_cases h1 : 3 ≤ a ∧ a ≤ 18
  · by_cases h2 : 10 ≤ w ∧ w ≤ 120
    · by_cases h3 : 80 ≤ h ∧ h ≤ 220
      · simp [h1, h2, h3]
      · simp [h1, h2, h3]
    · simp [h1, h2]
  · simp [h1]

/-- C2 counterexample: it is not true that keys of Chest/Waist/Hip for which
the brand resolver found no value are absent from the seeded `measurements`.
At the concrete table `[c2Row]` the resolver returns a result whose Waist
value was not found (`some none`), yet the seeded map still contains the
key "Waist" (bound to Python `None`). -/
theorem C2_counterexample :
    ¬ (∀ (df : List Row) (brand : String) (age : ℚ) (gender : String)
        (bm : List (String × Option ℚ)),
        get_brand_measurements df brand age gender = some bm →
        ∀ k, dlookup k bm = some none → dlookup k (seedStep (some bm)) = none) := by
  intro hcl
  have h1 : get_brand_measurements [c2Row] "Zara" 7 "male"
      = some [("Chest", some 50), ("Waist", none), ("Hip", none)] := by decide
  have h2 := hcl [c2Row] "Zara" 7 "male" _ h1 "Waist" (by decide)
  exact absurd h2 (by decide)

/-- C2 (amended): when the brand resolver returns a non-empty result the
seeded `measurements` equals that result — all three keys Chest, Waist, Hip
present, a key whose value was not found carrying Python `None` rather than
being absent — and the statistical predictor is invoked iff `measurements`
is still empty after seeding: a non-empty seed passes through the fallback
step unchanged for every predictor output, while an empty seed (no brand, or
resolver returned nothing) makes the fallback step install exactly the first
four predictor outputs as Waist, Hip, Bicep, Wrist, rounded to 2 decimals. -/
theorem C2_amended_brand_seeding (df : List Row) (brand : String) (age : ℚ)
    (gender : String) :
    (∀ bm, get_brand_measurements df brand age gender = some bm →
      seedStep (some bm) = bm ∧
      dkeys bm = ["Chest", "Waist", "Hip"] ∧
      (∀ pred4 : ℚ × ℚ × ℚ × ℚ,
        fallbackStep pred4 (seedStep (some bm)) = seedStep (some bm))) ∧
    (get_brand_measurements df brand age gender = none →
      ∀ pred4 : ℚ × ℚ × ℚ × ℚ,
        fallbackStep pred4 (seedStep none) =
          [("Waist", some (round2 pred4.1)), ("Hip", some (round2 pred4.2.1)),
           ("Bicep", some (round2 pred4.2.2.1)), ("Wrist", some (round2 pred4.2.2.2))]) := by
  constructor
  · intro bm hbm
    unfold get_brand_measurements at hbm
    revert hbm
    cases (brandFiltered df brand gender).filter (fun r => age_matches r.ageYears age) with
    | nil => intro hbm; cases hbm
    | cons row rest =>
      intro hbm
      injection hbm with hbm
      subst hbm
      exact ⟨rfl, rfl, fun pred4 => rfl⟩
  · intro _ pred4
    rfl

theorem C2_amended_brand_seeding_witness :
    get_brand_measurements [c2Row] "Zara" 7 "male"
      = some [("Chest", some 50), ("Waist", none), ("Hip", none)] ∧
    seedStep (some [("Chest", some 50), ("Waist", none), ("Hip", none)])
      = [("Chest", some 50), ("Waist", none), ("Hip", none)] ∧
    dkeys [("Chest", some (50 : ℚ)), ("Waist", none), ("Hip", none)]
      = ["Chest", "Waist", "Hip"] ∧
    get_brand_measurements [] "Zara" 7 "male" = none ∧
    fallbackStep ((20 : ℚ), (30 : ℚ), (15 : ℚ), (10 : ℚ)) (seedStep none)
      = [("Waist", some 20), ("Hip", some 30), ("Bicep", some 15), ("Wrist", some 10)] := by
  have h1 : get_brand_measurements [c2Row] "Zara" 7 "male"
      = some [("Chest", some 50), ("Waist", none), ("Hip", none)] := by decide
  have h2 := (C2_amended_brand_seeding [c2Row] "Zara" 7 "male").1 _ h1
  have h3 : get_brand_measurements [] "Zara" 7 "male" = none := by decide
  have h4 := (C2_amended_brand_seeding [] "Zara" 7 "male").2 h3 (20, 30, 15, 10)
  exact ⟨h1, h2.1, h2.2.1, h3, by rw [h4]; decide⟩

theorem C8_dataset_parsing_witness :
    parse_range (some "90") = some (strToRat ['9', '0']) ∧
    parse_range (some "71-78")
      = some (([['7', '1'], ['7', '8']].map strToRat).sum
          / (([['7', '1'], ['7', '8']] : List (List Char)).length : ℚ)) ∧
    (age_matches (some "10&11") 10 = true ↔
      pyInt 10 ∈ (scanInts (pyStrip "10&11".data)).map (fun ds => (digitsToNat ds : ℤ))) ∧
    (age_matches (some "104–110") 107 = true ↔ 104 ≤ pyInt 107 ∧ pyInt 107 ≤ 110) ∧
    (age_matches (some "120") 120 = true ↔ (digitsToNat (pyStrip "120".data) : ℤ) = pyInt 120) ∧
    age_matches (some "abc") 5 = false := by
  obtain ⟨-, hone, hmean, -, -, -, -, hamp, hdash, hdig, hother⟩ := C8_dataset_parsing
  exact ⟨hone "90" _ (by decide),
    hmean "71-78" [['7', '1'], ['7', '8']] (by decide) (by decide),
    hamp "10&11" 10 (by decide),
    hdash "104–110" 107 104 110 (by decide) (by decide) (by decide),
    hdig "120" 120 (by decide),
    hother "abc" 5 (by decide) (by decide) (by decide)⟩

theorem lookup2_persist (st : Store) (p c : String) (r : MeasurementRecord) :
    lookup2 (persist st p c r) p c = some r := by
  simp [persist, lookup2, dlookup_dinsert_self]

/-- Symbolic evaluation of the predict route on a brand-less request that
passes validation. -/
theorem predict_measurements_eval (pred : Predictor) (df : List Row) (st : Store)
    (now : Nat) (p c : String) (age weight height : ℚ) (g : GenderIn)
    (hval : (validate_input (mkPredictReq p c age weight height g) false).1 = true) :
    predict_measurements (some pred) df st now (mkPredictReq p c age weight height g)
      = (match allSome (assemble_measurements pred none age (convert_gender g)
            height weight) with
        | none => (.err 500 "Internal server error", st)
        | some cm =>
          let r : MeasurementRecord :=
            { parent_id := p
              child_id := c
              input_parameters :=
                { age := age
                  gender := gender_string (convert_gender g)
                  weight := weight
                  height := height
                  brand := none }
              measurements_cm := cm
              measurements_inches := inchesOf cm
              prediction_timestamp := now
              last_updated := now
              is_predicted := true
              is_manually_updated := false }
          (.ok r, persist st p c r)) := by
  unfold predict_measurements
  rw [hval, if_neg (by decide)]
  split
  next heq => cases heq
  next pred2 heq =>
    cases heq
    split
    next parent_id child_id age1 gender0 weight1 height1 heq1 heq2 heq3 heq4 heq5 heq6 =>
      simp only [mkPredictReq] at heq1 heq2 heq3 heq4 heq5 heq6
      cases heq1; cases heq2; cases heq3; cases heq4; cases heq5; cases heq6
      simp only [mkPredictReq]
    next hcon =>
      exfalso
      exact hcon p c age g weight height rfl rfl rfl rfl rfl rfl

/-- C1: predicting with valid inputs and no brand (p1/c1, age 7, male,
25 kg, 120 cm) succeeds; the resulting `measurements_cm` has
Chest = round(120×0.47,2) = 56.40, Shoulder = round(120×0.23,2) = 27.60,
Sleeve = round(120×0.32,2) = 38.40, and Waist/Hip/Bicep/Wrist are the first
four outputs of the statistical predictor, each rounded to 2 decimals; the
persisted record has `is_predicted = true` and
`is_manually_updated = false`. -/
theorem C1_predict_no_brand (pred : Predictor) (df : List Row) (st : Store) (now : Nat) :
    ∃ r st', predict_measurements (some pred) df st now c1Req = (.ok r, st') ∧
      dlookup "Chest" r.measurements_cm = some 56.40 ∧
      dlookup "Shoulder" r.measurements_cm = some 27.60 ∧
      dlookup "Sleeve" r.measurements_cm = some 38.40 ∧
      dlookup "Waist" r.measurements_cm = some (round2 (pred 7 1 120 25).1) ∧
      dlookup "Hip" r.measurements_cm = some (round2 (pred 7 1 120 25).2.1) ∧
      dlookup "Bicep" r.measurements_cm = some (round2 (pred 7 1 120 25).2.2.1) ∧
      dlookup "Wrist" r.measurements_cm = some (round2 (pred 7 1 120 25).2.2.2) ∧
      r.is_predicted = true ∧ r.is_manually_updated = false ∧
      lookup2 st' "p1" "c1" = some r := by
  have hv : validate_input c1Req false = (true, "Valid") := by decide
  have hcg : convert_gender (.str "male") = 1 := by decide
  have hcss : calculate_css_measurements 7 (gender_string 1) 120
      = (qmul 120 (q2 47), qmul 120 (q2 23), qmul 120 (q2 32)) := by
    norm_num [calculate_css_measurements, gender_string]
  have hadd : ∀ ch : ℚ, calculate_additional_measurements 7 (gender_string 1) 120 ch
      = [("Inseam", round2 (qmul 120 (q2 42))),
         ("Armhole", round2 (qmul 120 (q2 12))),
         ("TopLength", round2 (qmul 120 (q2 38))),
         ("KurtaLength", round2 (qmul 120 (q2 43))),
         ("PantLength", round2 (qadd (qmul 120 (q2 42)) (qmul 120 (q2 5)))),
         ("KneeLength", round2 (qmul 120 (q2 27))),
         ("MidiLength", round2 (qmul 120 (q2 40))),
         ("AnkleLength", round2 (qmul 120 (q2 50))),
         ("MaxiLength", round2 (qmul 120 (q2 58))),
         ("NeckDepthBack", round2 (pymax (qmul (qmul 120 (q2 52)) (q2 7)) (q2 150))),
         ("NeckDepthFront", round2 (pymax (qmul (qmul 120 (q2 52)) (q3 115)) (q2 250)))] := by
    intro ch
    norm_num [calculate_additional_measurements]
  have hasm : assemble_measurements pred none 7 1 120 25
      = [("Waist", some (round2 (pred 7 1 120 25).1)),
         ("Hip", some (round2 (pred 7 1 120 25).2.1)),
         ("Bicep", some (round2 (pred 7 1 120 25).2.2.1)),
         ("Wrist", some (round2 (pred 7 1 120 25).2.2.2)),
         ("Chest", some (round2 (qmul 120 (q2 47)))),
         ("Shoulder", some (round2 (qmul 120 (q2 23)))),
         ("Sleeve", some (round2 (qmul 120 (q2 32)))),
         ("Inseam", some (round2 (qmul 120 (q2 42)))),
         ("Armhole", some (round2 (qmul 120 (q2 12)))),
         ("TopLength", some (round2 (qmul 120 (q2 38)))),
         ("KurtaLength", some (round2 (qmul 120 (q2 43)))),
         ("PantLength", some (round2 (qadd (qmul 120 (q2 42)) (qmul 120 (q2 5))))),
         ("KneeLength", some (round2 (qmul 120 (q2 27)))),
         ("MidiLength", some (round2 (qmul 120 (q2 40)))),
         ("AnkleLength", some (round2 (qmul 120 (q2 50)))),
         ("MaxiLength", some (round2 (qmul 120 (q2 58)))),
         ("NeckDepthBack", some (round2 (pymax (qmul (qmul 120 (q2 52)) (q2 7)) (q2 150)))),
         ("NeckDepthFront", some (round2 (pymax (qmul (qmul 120 (q2 52)) (q3 115)) (q2 250))))] := by
    simp [assemble_measurements, seedStep, fallbackStep, hcss, hadd, dUpdate, dinsert, dlookup]
  have hch : round2 (qmul 120 (q2 47)) = (56.40 : ℚ) := by
    have h : round2 (qmul 120 (q2 47)) = Rat.divInt 282 5 := by decide
    rw [h, Rat.divInt_eq_div]; norm_num
  have hsh : round2 (qmul 120 (q2 23)) = (27.60 : ℚ) := by
    have h : round2 (qmul 120 (q2 23)) = Rat.divInt 138 5 := by decide
    rw [h, Rat.divInt_eq_div]; norm_num
  have hsl : round2 (qmul 120 (q2 32)) = (38.40 : ℚ) := by
    have h : round2 (qmul 120 (q2 32)) = Rat.divInt 192 5 := by decide
    rw [h, Rat.divInt_eq_div]; norm_num
  have hreq : c1Req = mkPredictReq "p1" "c1" 7 25 120 (.str "male") := rfl
  have hroute : predict_measurements (some pred) df st now c1Req
      = (.ok (c1Rec pred now), persist st "p1" "c1" (c1Rec pred now)) := by
    rw [hreq, predict_measurements_eval pred df st now "p1" "c1" 7 25 120 (.str "male")
      (by rw [← hreq, hv])]
    have hcm : allSome (assemble_measurements pred none 7 (convert_gender (.str "male"))
        120 25) = some (c1Cm pred) := by
      rw [hcg, hasm]
      simp [allSome, c1Cm]
    rw [hcm]
    rfl
  refine ⟨c1Rec pred now, _, hroute, ?_, ?_, ?_, by simp [c1Rec, c1Cm, dlookup],
    by simp [c1Rec, c1Cm, dlookup], by simp [c1Rec, c1Cm, dlookup],
    by simp [c1Rec, c1Cm, dlookup], rfl, rfl, lookup2_persist st "p1" "c1" _⟩
  · simp [c1Rec, c1Cm, dlookup, hch]
  · simp [c1Rec, c1Cm, dlookup, hsh]
  · simp [c1Rec, c1Cm, dlookup, hsl]

/-- Validation always passes for an update body whose identifiers are
non-blank: the `len(data) == 2 and 'measurements' in data` branch of the
source is unreachable, so the measurements dict is not inspected here. -/
theorem validate_update (p c : String) (ms : Option (List (String × ℚ)))
    (hp : (pyStrip p.data).isEmpty = false) (hc : (pyStrip c.data).isEmpty = false) :
    validate_input (mkUpdateReq p c ms) true = (true, "Valid") := by
  cases ms <;> simp [validate_input, mkUpdateReq, reqLen, hp, hc]

/-- Symbolic evaluation of the update route when the (parent, child) pair is
absent. -/
theorem update_measurements_not_found (st : Store) (now : Nat) (p c : String)
    (ms : Option (List (String × ℚ)))
    (hval : (validate_input (mkUpdateReq p c ms) true).1 = true)
    (hnf : lookup2 st p c = none) :
    update_measurements st now (mkUpdateReq p c ms) = (.err 404 (not_found_msg p c), st) := by
  unfold update_measurements
  rw [hval, if_neg (by decide)]
  split
  next parent_id child_id heq1 heq2 =>
    simp only [mkUpdateReq] at heq1 heq2
    cases heq1; cases heq2
    unfold lookup2 at hnf
    split
    next hP => rfl
    next children hP =>
      rw [hP] at hnf
      simp at hnf
      rw [hnf]
  next hcon =>
    exfalso
    exact hcon p c rfl rfl

/-- Symbolic evaluation of the update route on a present record and a
supplied measurements dict that passes format validation. -/
theorem update_measurements_eval (st : Store) (now : Nat) (p c : String)
    (ms : List (String × ℚ)) (children : ChildMap) (r0 : MeasurementRecord)
    (hval : (validate_input (mkUpdateReq p c (some ms)) true).1 = true)
    (hP : dlookup p st = some children) (hC : dlookup c children = some r0)
    (hvm : (validate_measurements_format ms).1 = true) :
    update_measurements st now (mkUpdateReq p c (some ms))
      = (.ok (updRec r0 ms now), dinsert p (dinsert c (updRec r0 ms now) children) st) := by
  unfold update_measurements
  rw [hval, if_neg (by decide)]
  split
  next parent_id child_id heq1 heq2 =>
    simp only [mkUpdateReq] at heq1 heq2
    cases heq1; cases heq2
    rw [hP]
    split
    next hP2 => cases hP2
    next children2 hP2 =>
      cases hP2
      rw [hC]
      split
      next hC2 => cases hC2
      next r02 hC2 =>
        cases hC2
        simp only [mkUpdateReq]
        rw [hvm, if_neg (by decide)]
        rfl
  next hcon =>
    exfalso
    exact hcon p c rfl rfl

/-- Symbolic evaluation of the update route when the supplied measurements
dict fails format validation: a 400 error and an untouched store. -/
theorem update_measurements_bad_format (st : Store) (now : Nat) (p c : String)
    (ms : List (String × ℚ)) (children : ChildMap) (r0 : MeasurementRecord)
    (hval : (validate_input (mkUpdateReq p c (some ms)) true).1 = true)
    (hP : dlookup p st = some children) (hC : dlookup c children = some r0)
    (hvm : (validate_measurements_format ms).1 = false) :
    update_measurements st now (mkUpdateReq p c (some ms))
      = (.err 400 (validate_measurements_format ms).2, st) := by
  unfold update_measurements
  rw [hval, if_neg (by decide)]
  split
  next parent_id child_id heq1 heq2 =>
    simp only [mkUpdateReq] at heq1 heq2
    cases heq1; cases heq2
    rw [hP]
    split
    next hP2 => cases hP2
    next children2 hP2 =>
      cases hP2
      rw [hC]
      split
      next hC2 => cases hC2
      next r02 hC2 =>
        cases hC2
        simp only [mkUpdateReq]
        rw [hvm]
        rfl
  next hcon =>
    exfalso
    exact hcon p c rfl rfl

/-- Symbolic evaluation of the update route when the body carries no
`measurements` key: success echoing the current record, store rewritten
unchanged. -/
theorem update_measurements_no_ms (st : Store) (now : Nat) (p c : String)
    (children : ChildMap) (r0 : MeasurementRecord)
    (hval : (validate_input (mkUpdateReq p c none) true).1 = true)
    (hP : dlookup p st = some children) (hC : dlookup c children = some r0) :
    update_measurements st now (mkUpdateReq p c none)
      = (.ok r0, dinsert p (dinsert c r0 children) st) := by
  unfold update_measurements
  rw [hval, if_neg (by decide)]
  split
  next parent_id child_id heq1 heq2 =>
    simp only [mkUpdateReq] at heq1 heq2
    cases heq1; cases heq2
    rw [hP]
    split
    next hP2 => cases hP2
    next children2 hP2 =>
      cases hP2
      rw [hC]
      split
      next hC2 => cases hC2
      next r02 hC2 =>
        cases hC2
        simp only [mkUpdateReq]
  next hcon =>
    exfalso
    exact hcon p c rfl rfl

/-- Any run of the predict route either leaves the store untouched and
returns an error, or persists a freshly-built record under the request's
identifiers. -/
theorem predict_measurements_cases (model : Option Predictor) (df : List Row)
    (st : Store) (now : Nat) (data : ReqData) :
    ((predict_measurements model df st now data).2 = st ∧
      ∀ r, (predict_measurements model df st now data).1 ≠ .ok r) ∨
    (∃ p c r, predict_measurements model df st now data = (.ok r, persist st p c r) ∧
      r.measurements_inches = inchesOf r.measurements_cm ∧
      r.prediction_timestamp = now ∧ r.last_updated = now ∧
      r.is_predicted = true ∧ r.is_manually_updated = false) := by
  unfold predict_measurements
  split
  · exact Or.inl ⟨rfl, fun r h => by simp at h⟩
  · split
    · exact Or.inl ⟨rfl, fun r h => by simp at h⟩
    · split
      next parent_id child_id age1 gender0 weight1 height1 heq1 heq2 heq3 heq4 heq5 heq6 =>
        dsimp only []
        split
        · exact Or.inl ⟨rfl, fun r h => by simp at h⟩
        next cm hA =>
          exact Or.inr ⟨parent_id, child_id, _, rfl, rfl, rfl, rfl, rfl, rfl⟩
      next hcon => exact Or.inl ⟨rfl, fun r h => by simp at h⟩

/-- Any run of the update route either leaves the store untouched, or
rewrites exactly the record stored under the request's identifiers with one
whose `prediction_timestamp` and `is_predicted` are unchanged, and that is
either the old record itself or a merge with fully recomputed inches. -/
theorem update_measurements_cases (st : Store) (now : Nat) (data : ReqData) :
    (update_measurements st now data).2 = st ∨
    (∃ p c children r0 r1,
      dlookup p st = some children ∧ dlookup c children = some r0 ∧
      (update_measurements st now data).2 = dinsert p (dinsert c r1 children) st ∧
      r1.prediction_timestamp = r0.prediction_timestamp ∧
      r1.is_predicted = r0.is_predicted ∧
      (r1 = r0 ∨ r1.measurements_inches = inchesOf r1.measurements_cm)) := by
  unfold update_measurements
  split
  · exact Or.inl rfl
  · split
    · next parent_id child_id _ _ =>
      split
      · exact Or.inl rfl
      · next children hP =>
        split
        · exact Or.inl rfl
        · next r0 hC =>
          split
          · split
            · exact Or.inl rfl
            · exact Or.inr ⟨parent_id, child_id, children, r0, _, hP, hC, rfl, rfl, rfl,
                Or.inr rfl⟩
          · exact Or.inr ⟨parent_id, child_id, children, r0, r0, hP, hC, rfl, rfl, rfl,
              Or.inl rfl⟩
    · exact Or.inl rfl

theorem mem_values_of_dlookup {α : Type} {k : String} {v : α} {d : List (String × α)}
    (h : dlookup k d = some v) : v ∈ d.map Prod.snd := by
  induction d with
  | nil => simp [dlookup] at h
  | cons hd tl ih =>
    obtain ⟨k0, v0⟩ := hd
    by_cases h0 : k0 = k
    · simp only [dlookup, if_pos h0] at h
      injection h with h
      simp [h]
    · simp only [dlookup, if_neg h0] at h
      simp [ih h]

theorem mem_values_dinsert {α : Type} {x v : α} {k : String} {d : List (String × α)}
    (h : x ∈ (dinsert k v d).map Prod.snd) : x = v ∨ x ∈ d.map Prod.snd := by
  induction d with
  | nil => simpa [dinsert] using h
  | cons hd tl ih =>
    obtain ⟨k0, v0⟩ := hd
    by_cases h0 : k0 = k
    · simp only [dinsert, if_pos h0, List.map_cons, List.mem_cons] at h
      rcases h with h | h
      · exact Or.inl h
      · exact Or.inr (by simp [h])
    · simp only [dinsert, if_neg h0, List.map_cons, List.mem_cons] at h
      rcases h with h | h
      · exact Or.inr (by simp [h])
      · rcases ih h with h2 | h2
        · exact Or.inl h2
        · exact Or.inr (by simp [h2])

theorem mem_allRecords_dinsert {r : MeasurementRecord} {p : String} {ch : ChildMap}
    {st : Store} (h : r ∈ allRecords (dinsert p ch st)) :
    r ∈ ch.map Prod.snd ∨ r ∈ allRecords st := by
  induction st with
  | nil => simpa [dinsert, allRecords] using h
  | cons hd tl ih =>
    obtain ⟨p0, ch0⟩ := hd
    by_cases h0 : p0 = p
    · simp only [dinsert, if_pos h0, allRecords, List.foldr_cons, List.mem_append] at h ⊢
      rcases h with h | h
      · exact Or.inl h
      · exact Or.inr (Or.inr h)
    · simp only [dinsert, if_neg h0, allRecords, List.foldr_cons, List.mem_append] at h ⊢
      rcases h with h | h
      · exact Or.inr (Or.inl h)
      · rcases ih h with h2 | h2
        · exact Or.inl h2
        · exact Or.inr (Or.inr h2)

theorem mem_allRecords_of_dlookup {p : String} {ch : ChildMap} {st : Store}
    {r : MeasurementRecord} (hP : dlookup p st = some ch) (h : r ∈ ch.map Prod.snd) :
    r ∈ allRecords st := by
  induction st with
  | nil => simp [dlookup] at hP
  | cons hd tl ih =>
    obtain ⟨p0, ch0⟩ := hd
    by_cases h0 : p0 = p
    · simp only [dlookup, if_pos h0] at hP
      injection hP with hP
      subst hP
      simp only [allRecords, List.foldr_cons]
      exact List.mem_append.mpr (Or.inl h)
    · simp only [dlookup, if_neg h0] at hP
      simp only [allRecords, List.foldr_cons]
      exact List.mem_append.mpr (Or.inr (ih hP))

/-- A failing format check means some supplied entry has a key outside the
restricted vocabulary or a non-positive value, and conversely. -/
theorem validate_measurements_format_false_iff (ms : List (String × ℚ)) :
    (validate_measurements_format ms).1 = false ↔
      ∃ kv ∈ ms, kv.1 ∉ valid_measurement_keys ∨ kv.2 ≤ 0 := by
  induction ms with
  | nil => simp [validate_measurements_format]
  | cons hd tl ih =>
    obtain ⟨k, v⟩ := hd
    simp only [validate_measurements_format]
    by_cases hk : valid_measurement_keys.contains k = true
    · rw [if_neg (by simpa using hk)]
      by_cases hv : v ≤ 0
      · rw [if_pos hv]
        exact iff_of_true rfl ⟨(k, v), by simp, Or.inr hv⟩
      · rw [if_neg hv, ih]
        constructor
        · rintro ⟨kv, hmem, hbad⟩
          exact ⟨kv, by simp [hmem], hbad⟩
        · rintro ⟨kv, hmem, hbad⟩
          rcases List.mem_cons.mp hmem with heq | hmem2
          · subst heq
            rcases hbad with hbad | hbad
            · exact absurd (by simpa using hk) hbad
            · exact absurd hbad hv
          · exact ⟨kv, hmem2, hbad⟩
    · rw [if_pos (by simpa using hk)]
      refine iff_of_true rfl ⟨(k, v), by simp, Or.inl ?_⟩
      intro hmem
      exact hk (by simpa using hmem)

/-- C5: update fails with a 404 when the (parent, child) pair has no
record; with an existing record it fails with a 400 validation error when
any supplied key is outside {Waist, Hip, Bicep, Neck, Wrist, Chest,
Shoulder, Sleeve} or any supplied value is not positive (an invalid leading
key producing the message that lists the valid keys); in every such failure
the returned store is exactly the input store. -/
theorem C5_update_failures (st : Store) (now : Nat) (p c : String)
    (ms : List (String × ℚ))
    (hp : (pyStrip p.data).isEmpty = false) (hc : (pyStrip c.data).isEmpty = false) :
    (lookup2 st p c = none →
      update_measurements st now (mkUpdateReq p c (some ms))
        = (.err 404 (not_found_msg p c), st)) ∧
    ((∃ kv ∈ ms, kv.1 ∉ valid_measurement_keys ∨ kv.2 ≤ 0) →
      ∀ children r0, dlookup p st = some children → dlookup c children = some r0 →
      update_measurements st now (mkUpdateReq p c (some ms))
        = (.err 400 (validate_measurements_format ms).2, st)) ∧
    (∀ (k : String) (v : ℚ) (rest : List (String × ℚ)), k ∉ valid_measurement_keys →
      validate_measurements_format ((k, v) :: rest)
        = (false, "Invalid measurement key: " ++ k ++ ". Valid keys are: "
            ++ String.intercalate ", " valid_measurement_keys)) := by
  have hval : (validate_input (mkUpdateReq p c (some ms)) true).1 = true := by
    rw [validate_update p c (some ms) hp hc]
  refine ⟨?_, ?_, ?_⟩
  · intro hnf
    exact update_measurements_not_found st now p c (some ms) hval hnf
  · intro hbad children r0 hP hC
    exact update_measurements_bad_format st now p c ms children r0 hval hP hC
      ((validate_measurements_format_false_iff ms).mpr hbad)
  · intro k v rest hk
    have hkc : valid_measurement_keys.contains k = false := by
      rcases h2 : valid_measurement_keys.contains k with _ | _
      · rfl
      · exact absurd (by simpa using h2) hk
    simp only [validate_measurements_format, hkc]
    rfl

/-- C6: updating twice with the same valid, duplicate-free measurements
dict gives the same final `measurements_cm` as updating once; both results
carry `is_manually_updated = true` and an unchanged `is_predicted`, and keys
not supplied keep their old values. -/
theorem C6_update_idempotent (st : Store) (now1 now2 : Nat) (p c : String)
    (ms : List (String × ℚ)) (children : ChildMap) (r0 : MeasurementRecord)
    (hp : (pyStrip p.data).isEmpty = false) (hc : (pyStrip c.data).isEmpty = false)
    (hP : dlookup p st = some children) (hC : dlookup c children = some r0)
    (hvm : (validate_measurements_format ms).1 = true)
    (hnd : (dkeys ms).Nodup) :
    update_measurements st now1 (mkUpdateReq p c (some ms))
      = (.ok (updRec r0 ms now1),
         dinsert p (dinsert c (updRec r0 ms now1) children) st) ∧
    update_measurements (dinsert p (dinsert c (updRec r0 ms now1) children) st) now2
        (mkUpdateReq p c (some ms))
      = (.ok (updRec (updRec r0 ms now1) ms now2),
         dinsert p (dinsert c (updRec (updRec r0 ms now1) ms now2)
             (dinsert c (updRec r0 ms now1) children))
           (dinsert p (dinsert c (updRec r0 ms now1) children) st)) ∧
    (updRec (updRec r0 ms now1) ms now2).measurements_cm
      = (updRec r0 ms now1).measurements_cm ∧
    (updRec r0 ms now1).is_manually_updated = true ∧
    (updRec (updRec r0 ms now1) ms now2).is_manually_updated = true ∧
    (updRec r0 ms now1).is_predicted = r0.is_predicted ∧
    (updRec (updRec r0 ms now1) ms now2).is_predicted = r0.is_predicted ∧
    (∀ k, k ∉ dkeys ms →
      dlookup k (updRec r0 ms now1).measurements_cm = dlookup k r0.measurements_cm) ∧
    lookup2 (dinsert p (dinsert c (updRec (updRec r0 ms now1) ms now2)
          (dinsert c (updRec r0 ms now1) children))
        (dinsert p (dinsert c (updRec r0 ms now1) children) st)) p c
      = some (updRec (updRec r0 ms now1) ms now2) := by
  have hval : (validate_input (mkUpdateReq p c (some ms)) true).1 = true := by
    rw [validate_update p c (some ms) hp hc]
  have h1 := update_measurements_eval st now1 p c ms children r0 hval hP hC hvm
  have hP1 : dlookup p (dinsert p (dinsert c (updRec r0 ms now1) children) st)
      = some (dinsert c (updRec r0 ms now1) children) := dlookup_dinsert_self ..
  have hC1 : dlookup c (dinsert c (updRec r0 ms now1) children)
      = some (updRec r0 ms now1) := dlookup_dinsert_self ..
  have h2 := update_measurements_eval _ now2 p c ms _ _ hval hP1 hC1 hvm
  have hndm : (dkeys (ms.map (fun kv => (kv.1, round2 kv.2)))).Nodup := by
    rw [dkeys_map_snd]
    exact hnd
  have hcm : (updRec (updRec r0 ms now1) ms now2).measurements_cm
      = (updRec r0 ms now1).measurements_cm := by
    simp only [updRec]
    exact dUpdate_idem _ hndm
  refine ⟨h1, h2, hcm, rfl, rfl, rfl, rfl, ?_, ?_⟩
  · intro k hk
    simp only [updRec]
    exact dlookup_dUpdate_not_mem _ (by rwa [dkeys_map_snd])
  · simp [lookup2, dlookup_dinsert_self]

/-- C10: an update request carrying only the two identifiers (no
`measurements` key) on an existing record passes validation, returns success
echoing the current record, and leaves the store literally unchanged. -/
theorem C10_update_without_measurements (st : Store) (now : Nat) (p c : String)
    (children : ChildMap) (r0 : MeasurementRecord)
    (hp : (pyStrip p.data).isEmpty = false) (hc : (pyStrip c.data).isEmpty = false)
    (hP : dlookup p st = some children) (hC : dlookup c children = some r0) :
    (validate_input (mkUpdateReq p c none) true).1 = true ∧
    update_measurements st now (mkUpdateReq p c none) = (.ok r0, st) := by
  have hval : (validate_input (mkUpdateReq p c none) true).1 = true := by
    rw [validate_update p c none hp hc]
  refine ⟨hval, ?_⟩
  rw [update_measurements_no_ms st now p c children r0 hval hP hC,
    dinsert_lookup_eq hC, dinsert_lookup_eq hP]

theorem lookup2_eq_of_parent {st : Store} {p : String} {ch : ChildMap} (c : String)
    (hP : dlookup p st = some ch) : lookup2 st p c = dlookup c ch := by
  simp [lookup2, hP]

theorem lookup2_dinsert_other {p p' : String} (h : p' ≠ p) (st : Store)
    (ch : ChildMap) (c' : String) :
    lookup2 (dinsert p ch st) p' c' = lookup2 st p' c' := by
  simp [lookup2, dlookup_dinsert_ne _ _ h]

/-- C9: `prediction_timestamp` is stamped with the creation instant by every
successful prediction, and no update call ever changes any stored record's
`prediction_timestamp`. -/
theorem C9_prediction_timestamp_set_once :
    (∀ (model : Option Predictor) (df : List Row) (st : Store) (now : Nat)
      (data : ReqData) (r : MeasurementRecord) (st' : Store),
      predict_measurements model df st now data = (.ok r, st') →
      r.prediction_timestamp = now) ∧
    (∀ (st : Store) (now : Nat) (data : ReqData) (p c : String)
      (rec : MeasurementRecord), lookup2 st p c = some rec →
      (lookup2 (update_measurements st now data).2 p c).map
          MeasurementRecord.prediction_timestamp
        = some rec.prediction_timestamp) := by
  constructor
  · intro model df st now data r st' h
    rcases predict_measurements_cases model df st now data with
      ⟨_, hne⟩ | ⟨p, c, r2, heq, _, hts, _, _, _⟩
    · exact absurd (congrArg Prod.fst h) (hne r)
    · rw [heq] at h
      injection h with h1 h2
      injection h1 with h1
      rw [← h1]
      exact hts
  · intro st now data p c rec hrec
    rcases update_measurements_cases st now data with
      hst | ⟨p0, c0, children, r0, r1, hP, hC, hst, hts, _, _⟩
    · rw [hst, hrec]
      rfl
    · rw [hst]
      by_cases hpp : p = p0
      · subst hpp
        rw [lookup2_eq_of_parent c (dlookup_dinsert_self ..)]
        by_cases hcc : c = c0
        · subst hcc
          rw [dlookup_dinsert_self]
          have hr0 : rec = r0 := by
            rw [lookup2_eq_of_parent c hP, hC] at hrec
            exact (Option.some.inj hrec).symm
          simp [hts, hr0]
        · rw [dlookup_dinsert_ne _ _ hcc]
          rw [lookup2_eq_of_parent c hP] at hrec
          rw [hrec]
          rfl
      · rw [lookup2_dinsert_other hpp, hrec]
        rfl

/-- C3: the invariant says inches carries exactly the keys of cm with each
value `round(cm/2.54, 2)`; it holds of every record of every store after
any predict or update call, given it held before. -/
theorem C3_inches_invariant :
    (∀ r : MeasurementRecord, inchesInv r →
      dkeys r.measurements_inches = dkeys r.measurements_cm ∧
      ∀ k, dlookup k r.measurements_inches
        = (dlookup k r.measurements_cm).map (fun v => round2 (qdiv v (q2 254)))) ∧
    (∀ (model : Option Predictor) (df : List Row) (st : Store) (now : Nat)
      (data : ReqData), (∀ r ∈ allRecords st, inchesInv r) →
      ∀ r ∈ allRecords (predict_measurements model df st now data).2, inchesInv r) ∧
    (∀ (st : Store) (now : Nat) (data : ReqData),
      (∀ r ∈ allRecords st, inchesInv r) →
      ∀ r ∈ allRecords (update_measurements st now data).2, inchesInv r) := by
  refine ⟨?_, ?_, ?_⟩
  · intro r hinv
    refine ⟨?_, fun k => ?_⟩
    · rw [hinv, inchesOf]
      exact dkeys_map_snd (fun v => round2 (qdiv v (q2 254))) r.measurements_cm
    · rw [hinv, inchesOf]
      exact dlookup_map_snd (fun v => round2 (qdiv v (q2 254))) k r.measurements_cm
  · intro model df st now data hstinv r hr
    rcases predict_measurements_cases model df st now data with
      ⟨hst, _⟩ | ⟨p, c, r0, heq, hinv0, _, _, _, _⟩
    · rw [hst] at hr
      exact hstinv r hr
    · have hst' : (predict_measurements model df st now data).2 = persist st p c r0 := by
        rw [heq]
      rw [hst'] at hr
      unfold persist at hr
      rcases mem_allRecords_dinsert hr with h2 | h2
      · rcases mem_values_dinsert h2 with h3 | h3
        · rw [h3]
          exact hinv0
        · cases hdl : dlookup p st with
          | none => rw [hdl] at h3; simp at h3
          | some ch =>
            rw [hdl] at h3
            exact hstinv r (mem_allRecords_of_dlookup hdl (by simpa using h3))
      · exact hstinv r h2
  · intro st now data hstinv r hr
    rcases update_measurements_cases st now data with
      hst | ⟨p, c, children, r0, r1, hP, hC, hst, _, _, hd⟩
    · rw [hst] at hr
      exact hstinv r hr
    · rw [hst] at hr
      rcases mem_allRecords_dinsert hr with h2 | h2
      · rcases mem_values_dinsert h2 with h3 | h3
        · rcases hd with hd | hd
          · rw [h3, hd]
            exact hstinv r0 (mem_allRecords_of_dlookup hP (mem_values_of_dlookup hC))
          · rw [h3]
            exact hd
        · exact hstinv r (mem_allRecords_of_dlookup hP h3)
      · exact hstinv r h2

theorem C5_witness :
    update_measurements [] 5 (mkUpdateReq "p1" "c1" (some [("Waist", (50 : ℚ))]))
      = (.err 404 (not_found_msg "p1" "c1"), []) ∧
    update_measurements wStore 5 (mkUpdateReq "p1" "c1" (some [("Foo", (5 : ℚ))]))
      = (.err 400 (validate_measurements_format [("Foo", 5)]).2, wStore) ∧
    validate_measurements_format [(("Foo" : String), (5 : ℚ))]
      = (false, "Invalid measurement key: Foo. Valid keys are: "
          ++ String.intercalate ", " valid_measurement_keys) := by
  refine ⟨?_, ?_, ?_⟩
  · exact (C5_update_failures [] 5 "p1" "c1" [("Waist", 50)]
      (by decide) (by decide)).1 (by decide)
  · exact (C5_update_failures wStore 5 "p1" "c1" [("Foo", 5)]
      (by decide) (by decide)).2.1 ⟨("Foo", 5), by decide, Or.inl (by decide)⟩
      [("c1", wRec)] wRec rfl rfl
  · exact (C5_update_failures wStore 5 "p1" "c1" [("Foo", 5)]
      (by decide) (by decide)).2.2 "Foo" 5 [] (by decide)

theorem C6_witness :
    update_measurements wStore 5 (mkUpdateReq "p1" "c1" (some [("Waist", (60 : ℚ))]))
      = (.ok (updRec wRec [("Waist", 60)] 5),
         dinsert "p1" (dinsert "c1" (updRec wRec [("Waist", 60)] 5) [("c1", wRec)])
           wStore) ∧
    (updRec (updRec wRec [("Waist", 60)] 5) [("Waist", 60)] 6).measurements_cm
      = (updRec wRec [("Waist", 60)] 5).measurements_cm ∧
    (updRec wRec [("Waist", 60)] 5).is_manually_updated = true ∧
    (updRec wRec [("Waist", 60)] 5).is_predicted = wRec.is_predicted ∧
    dlookup "Chest" (updRec wRec [("Waist", 60)] 5).measurements_cm
      = dlookup "Chest" wRec.measurements_cm := by
  have h := C6_update_idempotent wStore 5 6 "p1" "c1" [("Waist", 60)] [("c1", wRec)] wRec
    (by decide) (by decide) rfl rfl (by decide) (by decide)
  exact ⟨h.1, h.2.2.1, h.2.2.2.1, h.2.2.2.2.2.1, h.2.2.2.2.2.2.2.1 "Chest" (by decide)⟩

theorem C10_witness :
    update_measurements wStore 9 (mkUpdateReq "p1" "c1" none) = (.ok wRec, wStore) :=
  (C10_update_without_measurements wStore 9 "p1" "c1" [("c1", wRec)] wRec
    (by decide) (by decide) rfl rfl).2

theorem C9_witness :
    (c1Rec wPred 5).prediction_timestamp = 5 ∧
    (lookup2 (update_measurements wStore 9
          (mkUpdateReq "p1" "c1" (some [("Waist", (60 : ℚ))]))).2 "p1" "c1").map
        MeasurementRecord.prediction_timestamp
      = some wRec.prediction_timestamp := by
  constructor
  · exact C9_prediction_timestamp_set_once.1 (some wPred) [] [] 5 c1Req (c1Rec wPred 5)
      (persist [] "p1" "c1" (c1Rec wPred 5)) (by decide)
  · exact C9_prediction_timestamp_set_once.2 wStore 9
      (mkUpdateReq "p1" "c1" (some [("Waist", (60 : ℚ))])) "p1" "c1" wRec rfl

theorem C3_witness :
    (dkeys wRec.measurements_inches = dkeys wRec.measurements_cm ∧
      dlookup "Waist" wRec.measurements_inches
        = (dlookup "Waist" wRec.measurements_cm).map
            (fun v => round2 (qdiv v (q2 254)))) ∧
    inchesInv (c1Rec wPred 5) ∧
    inchesInv (updRec wRec [("Waist", 60)] 9) := by
  obtain ⟨h1, h2, h3⟩ := C3_inches_invariant
  have ha := h1 wRec rfl
  refine ⟨⟨ha.1, ha.2 "Waist"⟩, ?_, ?_⟩
  · exact h2 (some wPred) [] [] 5 c1Req (by intro r hr; simp [allRecords] at hr)
      (c1Rec wPred 5) (by decide)
  · refine h3 wStore 9 (mkUpdateReq "p1" "c1" (some [("Waist", (60 : ℚ))])) ?_
      (updRec wRec [("Waist", 60)] 9) (by decide)
    intro r hr
    have hrw : r = wRec := by
      simpa [allRecords, wStore] using hr
    rw [hrw]
    show wRec.measurements_inches = inchesOf wRec.measurements_cm
    decide
